import Mathlib

/-
Shallow embedding of `TesterPy.py` (module `TesterPy` of the Pulsar attic).

The module defines a class `TesterPy` extending the external `TesterBase`
recorder with two duck-typed assertion methods, `test` and `test_value`,
and two free functions `py_test_function` and `py_test_bool_function`.

Modelling choices, each mirroring a construct of the source:

* The evaluation of a Python expression that can raise is a `PyResult α`:
  either a normal value, or a raised error carrying the flag `isExc`
  (whether the error class derives from `Exception`, the only class the
  source's `except Exception` handlers catch; a bare `except:` catches
  both kinds) and the error's string representation `str(e)`.
* The external capabilities (the recorder's `test_bool` primitive and the
  process-wide debug sink `psr.print_global_debug`) are uninterpreted:
  a call to one of them is an `Event` appended to a trace, together with
  the exact arguments the source passes.
* `expected == func(*args)`: Python first evaluates `func(*args)` and then
  the equality; either step may raise.  The call outcome is the argument
  `fres : PyResult α`, and the subsequent equality evaluation against
  `expected` is the argument `eq : α → PyResult Bool` (a user `__eq__`
  may itself raise, which the model keeps visible).
* Numeric payloads are rationals: no claim depends on binary rounding,
  only on which values are passed through to the external primitives.
-/

inductive PyResult (α : Type) where
  | ok (v : α)
  | raise (isExc : Bool) (msg : String)
deriving DecidableEq, Repr

inductive Event where
  | callFunc
  | testBool (desc : String) (b : Bool)
  | printDebug (msg : String)
deriving DecidableEq, Repr

/-- Whether an event is an invocation of the user-supplied callable. -/
def Event.isCallFunc : Event → Bool
  | .callFunc => true
  | _ => false

/-- Whether an event is a call to the recorder's `test_bool` primitive. -/
def Event.isTestBool : Event → Bool
  | .testBool _ _ => true
  | _ => false

/-- Result of running a `TesterPy.test` call: the trace of external calls
made, and whether an error escaped to the caller (`propagated = true`). -/
structure TestRun where
  trace : List Event
  propagated : Bool
deriving DecidableEq, Repr

/-- Source method `TesterPy.test(self, desc, should_pass, expected, func, *args)`:
`try: success = (expected==func(*args) and should_pass)`
`except Exception as e: success = not should_pass`, then
`self.test_bool(desc, success)`.  The `try` body first calls `func(*args)`
(outcome `fres`), then evaluates `expected == <value>` (outcome `eq v`);
`and should_pass` short-circuits on a `False` comparison.  Only errors
derived from `Exception` are caught; any other raise escapes before
`test_bool` is reached. -/
def TesterPy.test {α : Type} (desc : String) (should_pass : Bool)
    (eq : α → PyResult Bool) (fres : PyResult α) : TestRun :=
  match fres with
  | .ok v =>
    match eq v with
    | .ok b => ⟨[.callFunc, .testBool desc (b && should_pass)], false⟩
    | .raise true _ => ⟨[.callFunc, .testBool desc (!should_pass)], false⟩
    | .raise false _ => ⟨[.callFunc], true⟩
  | .raise true _ => ⟨[.callFunc, .testBool desc (!should_pass)], false⟩
  | .raise false _ => ⟨[.callFunc], true⟩

/-- Python runtime values, as far as `test_value` distinguishes them.
`pyFloatSub` is an instance of a strict subclass of `float` (so its
`type(...)` is not `float` itself, though the value is a floating-point
number); `pyInt`, `pyStr` cover the remaining claim-relevant types. -/
inductive PyVal where
  | pyFloat (x : ℚ)
  | pyFloatSub (x : ℚ)
  | pyInt (n : ℤ)
  | pyStr (s : String)
deriving DecidableEq, Repr

/-- The numeric value of a `PyVal`, when it is a number (Python compares
numbers of different types by value: `1 == 1.0` is `True`). -/
def PyVal.toNum : PyVal → Option ℚ
  | .pyFloat x => some x
  | .pyFloatSub x => some x
  | .pyInt n => some (n : ℚ)
  | .pyStr _ => none

/-- Python `v1 == v2` on the modelled values: numbers compare by numeric
value across types, strings by content, and a number never equals a
string. -/
def pyEq (a b : PyVal) : Bool :=
  match a.toNum, b.toNum with
  | some x, some y => decide (x = y)
  | _, _ =>
    match a, b with
    | .pyStr s, .pyStr t => s == t
    | _, _ => false

/-- Exact type identity `type(v) == float`, true only for instances of
`float` itself, not of its subclasses. -/
def type_is_float : PyVal → Bool
  | .pyFloat _ => true
  | _ => false

/-- Modelled from the spec's words (for comparison with the source's
`type(v)==float` test): "both values are floating-point numbers" — a value
is a floating-point number when it is an instance of `float`, including
instances of strict subclasses of `float`. -/
def isFloatingPointNumber : PyVal → Bool
  | .pyFloat _ => true
  | .pyFloatSub _ => true
  | _ => false

/-- Which external recorder primitive a `test_value` call invokes, with
the exact arguments passed. -/
inductive ValueCall where
  | floatRec (desc : String) (v1 v2 tol : ℚ)
  | boolRec (desc : String) (b : Bool)
deriving DecidableEq, Repr

/-- Source method `TesterPy.test_value(self, desc, v1, v2, tol=0.0001)`:
`if type(v1)==float and type(v2)==float: self.test_float(desc,v1,v2,tol)`
`else: self.test_bool(desc, v1==v2)`. -/
def TesterPy.test_value (desc : String) (v1 v2 : PyVal) (tol : ℚ) : ValueCall :=
  match v1, v2 with
  | .pyFloat x, .pyFloat y => .floatRec desc x y tol
  | _, _ => .boolRec desc (pyEq v1 v2)

/-- Calling `test_value` with the `tol` argument omitted: the source's default is
`tol=0.0001`. -/
def TesterPy.test_value_default (desc : String) (v1 v2 : PyVal) : ValueCall :=
  TesterPy.test_value desc v1 v2 (1 / 10000)

/-- Source function `py_test_function(func, *args)`: `try: func(*args)` then
`except Exception as e: psr.print_global_debug(str(e) + "\n"); return 0`,
`except: return 0`, and `return 1` after the `try` statement.  The return
value is `some r` (the bare `except:` leaves no raise uncaught, so the
function always returns). -/
def py_test_function {α : Type} (fres : PyResult α) : List Event × Option Int :=
  match fres with
  | .ok _ => ([.callFunc], some 1)
  | .raise true m => ([.callFunc, .printDebug (m ++ "\n")], some 0)
  | .raise false _ => ([.callFunc], some 0)

/-- What `py_test_bool_function` returns: the callable's own value
(of arbitrary type, passed through unchanged), or the literal `0`. -/
inductive PyRet (α : Type) where
  | val (v : α)
  | intZero
deriving DecidableEq, Repr

/-- Source function `py_test_bool_function(func, *args)`: `try: return func(*args)` then
`except Exception as e: psr.print_global_debug(str(e) + "\n"); return 0`,
`except: return 0`. -/
def py_test_bool_function {α : Type} (fres : PyResult α) :
    List Event × Option (PyRet α) :=
  match fres with
  | .ok v => ([.callFunc], some (.val v))
  | .raise true m => ([.callFunc, .printDebug (m ++ "\n")], some (.intZero))
  | .raise false _ => ([.callFunc], some (.intZero))

example : pyEq (.pyInt 1) (.pyFloat 1) = true := by decide
example : pyEq (.pyStr "a") (.pyStr "b") = false := by decide
example : pyEq (.pyFloatSub 1) (.pyFloat 1) = true := by decide
example : TesterPy.test_value "d" (.pyFloat 1) (.pyFloat 2) (1 / 10000)
    = .floatRec "d" 1 2 (1 / 10000) := rfl
example : TesterPy.test_value "d" (.pyFloatSub 1) (.pyFloat 1) (1 / 10000)
    = .boolRec "d" true := by
  simp [TesterPy.test_value, pyEq, PyVal.toNum]
example : TesterPy.test "d" true (fun v : Nat => .ok (decide (v = 3))) (.ok 3)
    = ⟨[.callFunc, .testBool "d" true], false⟩ := by decide
example : TesterPy.test "d" false (fun v : Nat => .ok (decide (v = 3)))
    (.raise true "boom") = ⟨[.callFunc, .testBool "d" true], false⟩ := by decide
example : py_test_function (.raise true "division by zero" : PyResult Nat)
    = ([.callFunc, .printDebug "division by zero\n"], some 0) := by decide

/-- Claim C1: `test(desc, should_pass, expected, func, *args)` records, via
the recorder's boolean primitive, the outcome `True` exactly when either
`func(*args)` returns normally with a value equal to `expected` and
`should_pass` is `True`, or `func(*args)` raises an error and `should_pass`
is `False`; in every other case it records `False`.  (Errors here are the
ones the handler catches, i.e. derived from `Exception`, and the equality
evaluation returns normally; claim C9 treats the remaining raises.) -/
theorem test_records_true_iff_success {α : Type} (desc : String) (sp : Bool)
    (eq : α → PyResult Bool) (fres : PyResult α)
    (hexc : ∀ m, fres ≠ PyResult.raise false m)
    (htot : ∀ v, ∃ b, eq v = PyResult.ok b) :
    (Event.testBool desc true ∈ (TesterPy.test desc sp eq fres).trace ↔
      ((∃ v, fres = PyResult.ok v ∧ eq v = PyResult.ok true) ∧ sp = true) ∨
      ((∃ m, fres = PyResult.raise true m) ∧ sp = false)) ∧
    (Event.testBool desc false ∈ (TesterPy.test desc sp eq fres).trace ↔
      ¬ (((∃ v, fres = PyResult.ok v ∧ eq v = PyResult.ok true) ∧ sp = true) ∨
        ((∃ m, fres = PyResult.raise true m) ∧ sp = false))) := by
  cases fres with
  | ok v =>
    obtain ⟨b, hb⟩ := htot v
    cases b <;> cases sp <;> simp [TesterPy.test, hb]
  | raise isExc m =>
    cases isExc with
    | false => exact absurd rfl (hexc m)
    | true => cases sp <;> simp [TesterPy.test]

/-- Witness for C1: a concrete call where `func` returns `3`, the expected
value is `3` and `should_pass` is `True`, so `test_bool` records `True`. -/
theorem test_records_true_iff_success_witness :
    Event.testBool "d" true ∈
      (TesterPy.test "d" true (fun v : Nat => PyResult.ok (decide (v = 3)))
        (PyResult.ok 3)).trace :=
  (test_records_true_iff_success "d" true _ _
    (fun _ h => PyResult.noConfusion h)
    (fun v => ⟨decide (v = 3), rfl⟩)).1.mpr
    (Or.inl ⟨⟨3, rfl, rfl⟩, rfl⟩)

/-- Claim C2: `test` never propagates an error raised by `func` (the
handler catches every error derived from `Exception`) and performs exactly
one call to the recorder's `test_bool` primitive per invocation. -/
theorem test_no_propagation_one_record {α : Type} (desc : String) (sp : Bool)
    (eq : α → PyResult Bool) (fres : PyResult α)
    (hexc : ∀ m, fres ≠ PyResult.raise false m)
    (htot : ∀ v, ∃ b, eq v = PyResult.ok b) :
    (TesterPy.test desc sp eq fres).propagated = false ∧
    ((TesterPy.test desc sp eq fres).trace.countP Event.isTestBool) = 1 := by
  cases fres with
  | ok v =>
    obtain ⟨b, hb⟩ := htot v
    simp [TesterPy.test, hb, List.countP_cons, Event.isTestBool]
  | raise isExc m =>
    cases isExc with
    | false => exact absurd rfl (hexc m)
    | true => simp [TesterPy.test, List.countP_cons, Event.isTestBool]

/-- Witness for C2: the concrete call of the C1 witness neither propagates
nor records more than one boolean outcome. -/
theorem test_no_propagation_one_record_witness :
    (TesterPy.test "d" true (fun v : Nat => PyResult.ok (decide (v = 3)))
      (PyResult.ok 3)).propagated = false ∧
    ((TesterPy.test "d" true (fun v : Nat => PyResult.ok (decide (v = 3)))
      (PyResult.ok 3)).trace.countP Event.isTestBool) = 1 :=
  test_no_propagation_one_record "d" true _ _
    (fun _ h => PyResult.noConfusion h)
    (fun v => ⟨decide (v = 3), rfl⟩)

/-- Claim C8: in every `test` call the user-supplied callable is evaluated
exactly once — in particular at most once, with no retry — whether it
returns, raises a caught error or raises an uncaught one, and whatever
`should_pass` is. -/
theorem test_invokes_func_exactly_once {α : Type} (desc : String) (sp : Bool)
    (eq : α → PyResult Bool) (fres : PyResult α) :
    ((TesterPy.test desc sp eq fres).trace.countP Event.isCallFunc) = 1 := by
  cases fres with
  | ok v =>
    cases hb : eq v with
    | ok b =>
      simp [TesterPy.test, hb, List.countP_cons, Event.isCallFunc]
    | raise isExc m =>
      cases isExc <;>
        simp [TesterPy.test, hb, List.countP_cons, Event.isCallFunc]
  | raise isExc m =>
    cases isExc <;> simp [TesterPy.test, List.countP_cons, Event.isCallFunc]

/-- Claim C9: an error raised while evaluating the equality comparison
(e.g. by a user `__eq__`) is caught by the same `except Exception` handler
as an invocation error, so the recorded outcome is `not should_pass`; and
the caught class is exactly `Exception`, so a raise whose class does not
derive from `Exception` — whether from the comparison or from `func`
itself — propagates out of `test` with nothing recorded. -/
theorem test_catch_class_is_exactly_exception {α : Type} (desc : String)
    (sp : Bool) (eq : α → PyResult Bool) :
    (∀ (v : α) (m : String), eq v = PyResult.raise true m →
      TesterPy.test desc sp eq (PyResult.ok v)
        = ⟨[Event.callFunc, Event.testBool desc (!sp)], false⟩) ∧
    (∀ (v : α) (m : String), eq v = PyResult.raise false m →
      TesterPy.test desc sp eq (PyResult.ok v) = ⟨[Event.callFunc], true⟩) ∧
    (∀ m : String, TesterPy.test desc sp eq (PyResult.raise false m)
      = ⟨[Event.callFunc], true⟩) := by
  refine ⟨fun v m h => ?_, fun v m h => ?_, fun m => ?_⟩
  · simp [TesterPy.test, h]
  · simp [TesterPy.test, h]
  · simp [TesterPy.test]

/-- Witness for C9: concrete calls exercising all three cases (comparison
raises an `Exception`; comparison raises a non-`Exception`; `func` raises
a non-`Exception`). -/
theorem test_catch_class_is_exactly_exception_witness :
    TesterPy.test "d" true (fun _ : Nat => PyResult.raise true "boom")
      (PyResult.ok 0)
      = ⟨[Event.callFunc, Event.testBool "d" false], false⟩ ∧
    TesterPy.test "d" true (fun _ : Nat => PyResult.raise false "interrupt")
      (PyResult.ok 0) = ⟨[Event.callFunc], true⟩ ∧
    TesterPy.test "d" true (fun _ : Nat => PyResult.ok true)
      (PyResult.raise false "system exit") = ⟨[Event.callFunc], true⟩ :=
  ⟨(test_catch_class_is_exactly_exception "d" true _).1 0 "boom" rfl,
   (test_catch_class_is_exactly_exception "d" true _).2.1 0 "interrupt" rfl,
   (test_catch_class_is_exactly_exception "d" true _).2.2 "system exit"⟩

/-- Counterexample to claim C3 as stated: with `v1` an instance of a
strict subclass of `float` holding the value `1.0` and `v2` the plain
float `1.0`, both values are floating-point numbers, yet
`test_value` (with the default tolerance) reaches the strict-equality
branch and calls `test_bool`, not the tolerance-aware `test_float`,
because the source tests `type(v1)==float` by exact type identity. -/
theorem test_value_floating_point_dispatch_cex :
    isFloatingPointNumber (PyVal.pyFloatSub 1) = true ∧
    isFloatingPointNumber (PyVal.pyFloat 1) = true ∧
    TesterPy.test_value_default "d" (PyVal.pyFloatSub 1) (PyVal.pyFloat 1)
      = ValueCall.boolRec "d" true ∧
    TesterPy.test_value_default "d" (PyVal.pyFloatSub 1) (PyVal.pyFloat 1)
      ≠ ValueCall.floatRec "d" 1 1 (1 / 10000) := by
  refine ⟨rfl, rfl, ?_, ?_⟩ <;>
    simp [TesterPy.test_value_default, TesterPy.test_value, pyEq, PyVal.toNum]

/-- Claim C3 (amended): `test_value(desc, v1, v2, tol)` compares `v1` and
`v2` with the tolerance-aware primitive `test_float` exactly when both
have exact runtime type `float` (an instance of a strict subclass of
`float` takes the other branch), and otherwise records
`test_bool(desc, v1 == v2)`; when the tolerance argument is omitted it
defaults to `0.0001`. -/
theorem test_value_exact_float_dispatch (desc : String) (v1 v2 : PyVal)
    (tol : ℚ) :
    (∀ x y, v1 = PyVal.pyFloat x → v2 = PyVal.pyFloat y →
      TesterPy.test_value desc v1 v2 tol = ValueCall.floatRec desc x y tol) ∧
    ((type_is_float v1 && type_is_float v2) = false →
      TesterPy.test_value desc v1 v2 tol
        = ValueCall.boolRec desc (pyEq v1 v2)) ∧
    TesterPy.test_value_default desc v1 v2
      = TesterPy.test_value desc v1 v2 (1 / 10000) := by
  refine ⟨fun x y h1 h2 => ?_, fun h => ?_, rfl⟩
  · subst h1; subst h2; rfl
  · cases v1 <;> cases v2 <;> simp_all [type_is_float, TesterPy.test_value]

/-- Witness for the amended C3: a pair of plain floats goes to
`test_float` with the tolerance, and a pair of strings goes to
`test_bool`. -/
theorem test_value_exact_float_dispatch_witness :
    TesterPy.test_value "d" (PyVal.pyFloat 1) (PyVal.pyFloat 2) (1 / 10000)
      = ValueCall.floatRec "d" 1 2 (1 / 10000) ∧
    TesterPy.test_value "d" (PyVal.pyStr "a") (PyVal.pyStr "a") (1 / 10000)
      = ValueCall.boolRec "d" (pyEq (PyVal.pyStr "a") (PyVal.pyStr "a")) :=
  ⟨(test_value_exact_float_dispatch "d" _ _ _).1 1 2 rfl rfl,
   (test_value_exact_float_dispatch "d" _ _ _).2.1 rfl⟩

/-- Claim C4: whenever `func(*args)` returns normally, `py_test_function`
returns `1`, whatever value `func` returned — the value `v` is discarded
and does not appear in the result. -/
theorem py_test_function_ok_returns_one {α : Type} (v : α) :
    py_test_function (PyResult.ok v) = ([Event.callFunc], some 1) := rfl

/-- Claim C5: whenever `func(*args)` raises an error (derived from
`Exception`, the class whose handler owns the debug write), 
`py_test_function` writes the error's string representation followed by a
newline — a non-empty message — to the process-wide debug sink, returns
`0`, and does not propagate the error. -/
theorem py_test_function_error_logs_and_returns_zero {α : Type}
    (m : String) :
    py_test_function (PyResult.raise true m : PyResult α)
      = ([Event.callFunc, Event.printDebug (m ++ "\n")], some 0) ∧
    1 ≤ (m ++ "\n").length := by
  refine ⟨rfl, ?_⟩
  have h : ("\n").length = 1 := rfl
  rw [String.length_append, h]
  omega

/-- Claim C6: whenever `func(*args)` returns normally,
`py_test_bool_function` returns the callable's own value unchanged (the
payload type `α` is arbitrary, so no coercion to a boolean happens). -/
theorem py_test_bool_function_ok_returns_value {α : Type} (v : α) :
    py_test_bool_function (PyResult.ok v)
      = ([Event.callFunc], some (PyRet.val v)) := rfl

/-- Claim C7: whenever `func(*args)` raises an error (derived from
`Exception`), `py_test_bool_function` writes to the debug sink and
returns `0`, and does not propagate the error. -/
theorem py_test_bool_function_error_logs_and_returns_zero {α : Type}
    (m : String) :
    py_test_bool_function (PyResult.raise true m : PyResult α)
      = ([Event.callFunc, Event.printDebug (m ++ "\n")], some PyRet.intZero) :=
  rfl

/-- Claim C10: `test_value` dispatches on exact type identity
(`type(v) == float`), so a float paired with an int — in either order —
and a pair involving an instance of a strict subclass of `float` all take
the strict-equality `test_bool` branch; the result does not mention `tol`
although `tol` ranges over all tolerances, so the tolerance argument is
ignored for such pairs. -/
theorem test_value_type_identity_dispatch (desc : String) (tol : ℚ) :
    (∀ (x : ℚ) (n : ℤ),
      TesterPy.test_value desc (PyVal.pyFloat x) (PyVal.pyInt n) tol
        = ValueCall.boolRec desc (pyEq (PyVal.pyFloat x) (PyVal.pyInt n))) ∧
    (∀ (n : ℤ) (x : ℚ),
      TesterPy.test_value desc (PyVal.pyInt n) (PyVal.pyFloat x) tol
        = ValueCall.boolRec desc (pyEq (PyVal.pyInt n) (PyVal.pyFloat x))) ∧
    (∀ (x y : ℚ),
      TesterPy.test_value desc (PyVal.pyFloatSub x) (PyVal.pyFloat y) tol
        = ValueCall.boolRec desc
            (pyEq (PyVal.pyFloatSub x) (PyVal.pyFloat y))) ∧
    (∀ (x y : ℚ),
      TesterPy.test_value desc (PyVal.pyFloat x) (PyVal.pyFloatSub y) tol
        = ValueCall.boolRec desc
            (pyEq (PyVal.pyFloat x) (PyVal.pyFloatSub y))) :=
  ⟨fun _ _ => rfl, fun _ _ => rfl, fun _ _ => rfl, fun _ _ => rfl⟩
